import Mathlib

/-!
Shallow embedding of the whisper-dictation audio capture pipeline
(src/pkgs/whisper: audio.rs, hotkey.rs, and the control loop of main.rs).

Float samples are modelled as exact rationals, machine integers as Nat/Int,
the cpal stream and mutexes as plain state fields, and the fallible Rust
functions as Except-returning Lean functions.
-/

namespace Whisper

/-- `pub const MAX_SAMPLE_RATE: u32 = 44100;` (audio.rs line 10). -/
def MAX_SAMPLE_RATE : Nat := 44100

/-- `pub const MAX_CHANNELS: u16 = 2;` (audio.rs line 11). -/
def MAX_CHANNELS : Nat := 2

/-- One advertised input configuration range of the audio device
(cpal `SupportedStreamConfigRange`): channel count plus min/max sample rate. -/
structure SupportedStreamConfigRange where
  channels : Nat
  minSampleRate : Nat
  maxSampleRate : Nat
  deriving DecidableEq, Repr

/-- A negotiated stream configuration (cpal `StreamConfig`). -/
structure StreamConfig where
  channels : Nat
  sampleRate : Nat
  deriving DecidableEq, Repr

/-- The sort key used by `max_by_key` in `AudioRecorder::start`:
`(c.channels(), c.max_sample_rate().0)` (audio.rs line 72). -/
def configKey (c : SupportedStreamConfigRange) : Nat × Nat :=
  (c.channels, c.maxSampleRate)

/-- Lexicographic order on the `(channels, max_sample_rate)` key,
matching the derived `Ord` on Rust tuples. -/
def keyLe (a b : Nat × Nat) : Bool :=
  decide (a.1 < b.1) || (decide (a.1 = b.1) && decide (a.2 ≤ b.2))

/-- One fold step of Rust `Iterator::max_by_key`: keep the later element
on ties, as `max_by_key` returns the last maximal element. -/
def maxStep (acc : Option SupportedStreamConfigRange) (x : SupportedStreamConfigRange) :
    Option SupportedStreamConfigRange :=
  match acc with
  | none => some x
  | some b => if keyLe (configKey b) (configKey x) then some x else some b

/-- `iter().max_by_key(|c| (c.channels(), c.max_sample_rate().0))`
(audio.rs line 72). -/
def maxByKeyLast (l : List SupportedStreamConfigRange) :
    Option SupportedStreamConfigRange :=
  l.foldl maxStep none

/-- The filter of `AudioRecorder::start`:
`c.channels() <= MAX_CHANNELS && c.min_sample_rate().0 <= MAX_SAMPLE_RATE`
(audio.rs line 71). -/
def qualifies (c : SupportedStreamConfigRange) : Bool :=
  decide (c.channels ≤ MAX_CHANNELS) && decide (c.minSampleRate ≤ MAX_SAMPLE_RATE)

/-- Format negotiation of `AudioRecorder::start` (audio.rs lines 69-82):
filter the advertised ranges, take the last maximum by
`(channels, max_sample_rate)`, and cap the sample rate at `MAX_SAMPLE_RATE`
via `std::cmp::min(supported.max_sample_rate().0, MAX_SAMPLE_RATE)`. -/
def negotiate (supportedConfigs : List SupportedStreamConfigRange) :
    Option StreamConfig :=
  match maxByKeyLast (supportedConfigs.filter qualifies) with
  | none => none
  | some c => some ⟨c.channels, min c.maxSampleRate MAX_SAMPLE_RATE⟩

/-- The mutable state of `AudioRecorder` (audio.rs lines 13-21).
The cpal `Stream` handle is modelled by the boolean `streamActive`,
the two `Arc<Mutex<_>>` cells by plain fields (the embedding is
sequential, the lock is held only for the duration of each access). -/
structure AudioRecorder where
  frames : List ℚ
  streamActive : Bool
  stream_config : Option StreamConfig
  max_frames : Nat
  is_recording_flag : Bool
  deriving DecidableEq, Repr

/-- `AudioRecorder::new` (audio.rs lines 24-40):
`max_frames = (MAX_SAMPLE_RATE * MAX_CHANNELS as u32 * max_time_seconds)`. -/
def AudioRecorder.new (max_time_seconds : Nat) : AudioRecorder :=
  { frames := []
    streamActive := false
    stream_config := none
    max_frames := MAX_SAMPLE_RATE * MAX_CHANNELS * max_time_seconds
    is_recording_flag := false }

/-- `AudioRecorder::is_recording` (audio.rs lines 166-168). -/
def AudioRecorder.is_recording (r : AudioRecorder) : Bool :=
  r.is_recording_flag

/-- The two failure modes of `AudioRecorder::start`: no default input
device (`context("No default input device available")`), or no advertised
configuration surviving the filter
(`anyhow!("No supported audio configurations found")`). -/
inductive StartError
  | noDefaultInputDevice
  | noSupportedConfig
  deriving DecidableEq, Repr

/-- `AudioRecorder::start` (audio.rs lines 42-141).  The host environment
is abstracted as `device : Option (List SupportedStreamConfigRange)`:
`none` when `default_input_device()` yields nothing, otherwise the list of
advertised configuration ranges.  Early-returns `Ok(())` while already
recording; otherwise clears the frame buffer, negotiates a configuration,
and on success stores it, marks the stream active and sets the recording
flag. -/
def AudioRecorder.start (r : AudioRecorder)
    (device : Option (List SupportedStreamConfigRange)) :
    Except StartError Unit × AudioRecorder :=
  if r.is_recording then
    (.ok (), r)
  else
    let r1 : AudioRecorder := { r with frames := [] }
    match device with
    | none => (.error .noDefaultInputDevice, r1)
    | some supportedConfigs =>
      match negotiate supportedConfigs with
      | none => (.error .noSupportedConfig, r1)
      | some config =>
        (.ok (), { r1 with
          stream_config := some config
          streamActive := true
          is_recording_flag := true })

/-- The input-stream callback of `AudioRecorder::start`
(audio.rs lines 101-128), as a state transformer on the recorder for one
delivered chunk `data`: return unchanged when the recording flag is down;
when the buffer already holds `max_frames` samples, clear the recording
flag and append nothing; otherwise append
`data[..min(data.len(), space_left)]`. -/
def AudioRecorder.deliver (r : AudioRecorder) (data : List ℚ) : AudioRecorder :=
  if !r.is_recording_flag then
    r
  else if r.max_frames ≤ r.frames.length then
    { r with is_recording_flag := false }
  else
    let space_left := r.max_frames - r.frames.length
    let elements_to_add := min data.length space_left
    { r with frames := r.frames ++ data.take elements_to_add }

/-- The outcomes of `AudioRecorder::stop` (audio.rs lines 143-164):
`Ok(None)` when the buffer is empty, `Err(..)` when frames exist without a
stored configuration, otherwise `Ok(Some((config, frames.clone())))`. -/
inductive StopOutcome
  | noData
  | missingConfigError
  | captured (config : StreamConfig) (frames : List ℚ)
  deriving DecidableEq, Repr

/-- `AudioRecorder::stop` (audio.rs lines 143-164): lower the recording
flag, release the stream, and return the (cloned) frame buffer with the
stored configuration.  The frame buffer itself stays inside the recorder;
only `start` clears it. -/
def AudioRecorder.stop (r : AudioRecorder) : StopOutcome × AudioRecorder :=
  let r1 : AudioRecorder := { r with is_recording_flag := false, streamActive := false }
  if r1.frames.isEmpty then
    (.noData, r1)
  else
    match r1.stream_config with
    | none => (.missingConfigError, r1)
    | some config => (.captured config r1.frames, r1)

/-- The operations the outside world performs on one `AudioRecorder`. -/
inductive RecorderOp
  | start (device : Option (List SupportedStreamConfigRange))
  | stop
  | deliver (data : List ℚ)

/-- Apply one operation, discarding its result. -/
def AudioRecorder.applyOp (r : AudioRecorder) : RecorderOp → AudioRecorder
  | .start device => (r.start device).2
  | .stop => (r.stop).2
  | .deliver data => r.deliver data

/-- Run a sequence of operations on a recorder. -/
def AudioRecorder.run (r : AudioRecorder) (ops : List RecorderOp) : AudioRecorder :=
  ops.foldl AudioRecorder.applyOp r

/-- The shared `AppState` of main.rs (lines 101-104). -/
structure AppState where
  is_recording : Bool
  deriving DecidableEq, Repr

/-- The state carried by the control loop of `main` (main.rs lines 204-241):
the shared `AppState` plus the recorder. -/
structure LoopState where
  app : AppState
  recorder : AudioRecorder
  deriving DecidableEq, Repr

/-- Outcome of consuming one Toggle Signal in the control loop: either the
loop continues, or the `?` on `recorder.start()` propagates the error out
of `main`, terminating the loop. -/
inductive LoopStep
  | continues (st : LoopState)
  | fatalExit (st : LoopState)
  deriving DecidableEq, Repr

/-- One iteration of the `ToggleRecording` arm of `main` (main.rs lines
209-239): flip `state.is_recording`; when the new state is recording, call
`recorder.start()` and propagate its error with `?` (fatal to the loop);
otherwise call `recorder.stop()` and handle every outcome non-fatally. -/
def mainStep (st : LoopState)
    (device : Option (List SupportedStreamConfigRange)) : LoopStep :=
  let currently_recording := st.app.is_recording
  let should_be_recording := !currently_recording
  let st1 : LoopState := { st with app := { is_recording := should_be_recording } }
  if should_be_recording then
    match st1.recorder.start device with
    | (.ok _, rec1) => .continues { st1 with recorder := rec1 }
    | (.error _, rec1) => .fatalExit { st1 with recorder := rec1 }
  else
    .continues { st1 with recorder := (st1.recorder.stop).2 }

/-- Consume `n` Toggle Signals.  The boolean is `true` when every `start()`
succeeded (the loop is still running), `false` when a fatal exit occurred
(remaining signals are not consumed). -/
def runToggles (device : Option (List SupportedStreamConfigRange)) :
    Nat → LoopState → LoopState × Bool
  | 0, st => (st, true)
  | n + 1, st =>
    match mainStep st device with
    | .continues st1 => runToggles device n st1
    | .fatalExit st1 => (st1, false)

/-! ### The rdev (hook-based) hotkey matcher, hotkey.rs lines 76-126 -/

/-- The keys the rdev matcher distinguishes: the two configured modifier
variants (`target_modifier.0 / .1`), the configured target key, anything
else. -/
inductive RdevKey
  | modifierLeft
  | modifierRight
  | targetKey
  | otherKey
  deriving DecidableEq, Repr

/-- Whether a key is one of the two configured modifier variants
(`key == target_modifier.0 || key == target_modifier.1`). -/
def RdevKey.isModifier : RdevKey → Bool
  | .modifierLeft => true
  | .modifierRight => true
  | _ => false

/-- The rdev events the callback inspects (`EventType::KeyPress` /
`EventType::KeyRelease`; all other event types are ignored). -/
inductive RdevEvent
  | keyPress (k : RdevKey)
  | keyRelease (k : RdevKey)
  deriving DecidableEq, Repr

/-- Whether an event is a press of a configured modifier key. -/
def RdevEvent.isModifierPress : RdevEvent → Bool
  | .keyPress k => k.isModifier
  | .keyRelease _ => false

/-- The listener `State { mod_pressed, key_pressed }` of `listen_rdev`
(hotkey.rs lines 46-54). -/
structure RdevListenerState where
  mod_pressed : Bool
  key_pressed : Bool
  deriving DecidableEq, Repr

/-- The rdev event callback (hotkey.rs lines 76-126) as a pure step:
returns the next listener state and the number of `ToggleRecording`
signals sent (0 or 1). -/
def rdevCallback (s : RdevListenerState) : RdevEvent → RdevListenerState × Nat
  | .keyPress k =>
    if k.isModifier then
      ({ mod_pressed := true, key_pressed := false }, 0)
    else if k = .targetKey then
      if !s.key_pressed && s.mod_pressed then
        ({ s with key_pressed := true }, 1)
      else
        (s, 0)
    else
      (s, 0)
  | .keyRelease k =>
    if k.isModifier then
      ({ mod_pressed := false, key_pressed := false }, 0)
    else if k = .targetKey then
      ({ s with key_pressed := false }, 0)
    else
      (s, 0)

/-- Run the rdev callback over an event sequence, counting emitted
Toggle Signals. -/
def rdevRun : RdevListenerState → List RdevEvent → RdevListenerState × Nat
  | s, [] => (s, 0)
  | s, e :: rest =>
    let r1 := rdevCallback s e
    let r2 := rdevRun r1.1 rest
    (r2.1, r1.2 + r2.2)

/-! ### The evdev (raw-device) hotkey matcher, hotkey.rs lines 282-324 -/

/-- One evdev key event: the raw key code and the event value
(0 = release, 1 = press, 2 = autorepeat). -/
structure EvdevEvent where
  code : Nat
  value : Nat
  deriving DecidableEq, Repr

/-- The per-event key handling of the evdev listener (hotkey.rs lines
282-324) as a pure step on the `modifier_pressed` flag: returns the next
flag plus the number of `ToggleRecording` signals sent.  `is_pressed` is
`value == 1 || value == 2` (press or repeat); there is no latch on the
target key, so every press or repeat with the modifier held sends a
signal. -/
def evdevStep (modifierCodes : List Nat) (targetCode : Nat)
    (modifier_pressed : Bool) (e : EvdevEvent) : Bool × Nat :=
  let is_pressed := decide (e.value = 1) || decide (e.value = 2)
  let is_released := decide (e.value = 0)
  if modifierCodes.contains e.code then
    if is_pressed then (true, 0)
    else if is_released then (false, 0)
    else (modifier_pressed, 0)
  else if decide (e.code = targetCode) && is_pressed then
    if modifier_pressed then (modifier_pressed, 1) else (modifier_pressed, 0)
  else
    (modifier_pressed, 0)

/-- Run the evdev step over an event sequence, counting emitted
Toggle Signals. -/
def evdevRun (modifierCodes : List Nat) (targetCode : Nat) :
    Bool → List EvdevEvent → Bool × Nat
  | m, [] => (m, 0)
  | m, e :: rest =>
    let r1 := evdevStep modifierCodes targetCode m e
    let r2 := evdevRun modifierCodes targetCode r1.1 rest
    (r2.1, r1.2 + r2.2)

/-! ### The encoder, audio.rs lines 176-204 -/

/-- Truncation toward zero, the behaviour of Rust `as i16` on an in-range
float. -/
def i16Truncate (q : ℚ) : ℤ :=
  if 0 ≤ q then ⌊q⌋ else ⌈q⌉

/-- Rust `f.clamp(lo, hi)` on exact values. -/
def clampQ (x lo hi : ℚ) : ℚ :=
  min (max x lo) hi

/-- The per-sample conversion of `save_f32_to_wav` (audio.rs line 193):
`(sample_f32 * 32767.0).clamp(-32768.0, 32767.0) as i16`. -/
def f32ToI16Sample (x : ℚ) : ℤ :=
  i16Truncate (clampQ (x * 32767) (-32768) 32767)

/-- `save_f32_to_wav` (audio.rs lines 176-204), WAV container framing
abstracted away: fails on empty input, otherwise yields the converted
16-bit sample sequence that is written to the file. -/
def save_f32_to_wav (data : List ℚ) : Except String (List ℤ) :=
  if data.isEmpty then
    .error "No audio data to save."
  else
    .ok (data.map f32ToI16Sample)

/-! ### Helper lemmas -/

lemma take_min_length (l : List ℚ) (n : Nat) :
    l.take (min l.length n) = l.take n := by
  rcases le_total l.length n with h | h
  · rw [Nat.min_eq_left h, List.take_length, List.take_of_length_le h]
  · rw [Nat.min_eq_right h]

lemma deliver_max_frames (r : AudioRecorder) (data : List ℚ) :
    (r.deliver data).max_frames = r.max_frames := by
  unfold AudioRecorder.deliver
  split
  · rfl
  · split <;> rfl

lemma deliver_frames_length_le (r : AudioRecorder) (data : List ℚ)
    (h : r.frames.length ≤ r.max_frames) :
    (r.deliver data).frames.length ≤ r.max_frames := by
  unfold AudioRecorder.deliver
  split
  · exact h
  · split
    · exact h
    · simp only [List.length_append, List.length_take]
      omega

lemma start_snd_max_frames (r : AudioRecorder)
    (device : Option (List SupportedStreamConfigRange)) :
    (r.start device).2.max_frames = r.max_frames := by
  unfold AudioRecorder.start
  split
  · rfl
  · cases device with
    | none => rfl
    | some cfgs => cases h : negotiate cfgs <;> simp [h]

lemma start_snd_frames (r : AudioRecorder)
    (device : Option (List SupportedStreamConfigRange)) :
    (r.start device).2.frames = r.frames ∨ (r.start device).2.frames = [] := by
  unfold AudioRecorder.start
  split
  · exact Or.inl rfl
  · cases device with
    | none => exact Or.inr rfl
    | some cfgs =>
      cases h : negotiate cfgs <;> simp [h]

lemma stop_snd (r : AudioRecorder) :
    (r.stop).2 = { r with is_recording_flag := false, streamActive := false } := by
  unfold AudioRecorder.stop
  dsimp only
  split
  · rfl
  · split <;> rfl

/-- The capacity invariant of the sample buffer. -/
def framesInv (r : AudioRecorder) (m : Nat) : Prop :=
  r.max_frames = m ∧ r.frames.length ≤ m

lemma applyOp_framesInv (r : AudioRecorder) (op : RecorderOp) (m : Nat)
    (h : framesInv r m) : framesInv (r.applyOp op) m := by
  obtain ⟨hm, hlen⟩ := h
  cases op with
  | start device =>
    show framesInv (r.start device).2 m
    refine ⟨hm ▸ start_snd_max_frames r device, ?_⟩
    rcases start_snd_frames r device with h1 | h1 <;> rw [h1]
    · exact hlen
    · exact Nat.zero_le m
  | stop =>
    rw [AudioRecorder.applyOp, stop_snd]
    exact ⟨hm, hlen⟩
  | deliver data =>
    show framesInv (r.deliver data) m
    exact ⟨hm ▸ deliver_max_frames r data,
      hm ▸ deliver_frames_length_le r data (hm ▸ hlen)⟩

lemma run_framesInv (ops : List RecorderOp) (r : AudioRecorder) (m : Nat)
    (h : framesInv r m) : framesInv (r.run ops) m := by
  induction ops generalizing r with
  | nil => exact h
  | cons op rest ih =>
    exact ih (r.applyOp op) (applyOp_framesInv r op m h)

/-! ### Claim theorems -/

/-- C1 (amended): the sample buffer capacity `max_frames` equals
`MAX_SAMPLE_RATE × MAX_CHANNELS × max_time_seconds` (the configured
ceilings, not the negotiated configuration), computed at construction in
`AudioRecorder::new`; under every sequence of start/stop/callback
operations the buffer length never exceeds that product and `max_frames`
never changes. -/
theorem whisper_c1_capacity (t : Nat) (ops : List RecorderOp) :
    ((AudioRecorder.new t).run ops).max_frames = MAX_SAMPLE_RATE * MAX_CHANNELS * t ∧
    ((AudioRecorder.new t).run ops).frames.length ≤ MAX_SAMPLE_RATE * MAX_CHANNELS * t :=
  run_framesInv ops (AudioRecorder.new t) (MAX_SAMPLE_RATE * MAX_CHANNELS * t)
    ⟨rfl, Nat.zero_le _⟩

/-- C1 (counterexample): with `max_duration = 1 s` and a device whose only
advertised format is 1 channel at 16000 Hz, the negotiated configuration
is indeed (1 ch, 16000 Hz), yet `max_frames` is `44100 × 2 × 1 = 88200`,
not `16000`, so a single 20000-sample delivery leaves 20000 samples in
the buffer, exceeding `negotiated_sample_rate × negotiated_channels ×
max_duration_seconds = 16000`. -/
theorem whisper_c1_counterexample :
    (((AudioRecorder.new 1).start (some [⟨1, 16000, 16000⟩])).2).stream_config =
      some ⟨1, 16000⟩ ∧
    (AudioRecorder.new 1).max_frames = 88200 ∧
    ((((AudioRecorder.new 1).start (some [⟨1, 16000, 16000⟩])).2).deliver
        (List.replicate 20000 (0 : ℚ))).frames.length = 20000 ∧
    ¬ (20000 : Nat) ≤ 16000 := by
  refine ⟨rfl, rfl, ?_, by omega⟩
  show ((((AudioRecorder.new 1).start (some [⟨1, 16000, 16000⟩])).2).deliver
      (List.replicate 20000 (0 : ℚ))).frames.length = 20000
  rw [show (((AudioRecorder.new 1).start (some [⟨1, 16000, 16000⟩])).2) =
      { frames := [], streamActive := true, stream_config := some ⟨1, 16000⟩,
        max_frames := 88200, is_recording_flag := true } from rfl]
  unfold AudioRecorder.deliver
  norm_num [List.length_take, List.length_replicate]

/-- C3 (amended): `stop()` with no preceding `start()` returns the
"no data" result; `stop()` returns a clone of the buffer and retains the
frames inside the engine (they are cleared only by the next `start()`);
consequently `stop()` reports "no data" exactly when the buffer is empty,
so a second `stop()` after a session that captured data returns the same
captured data again. -/
theorem whisper_c3_stop_clones (t : Nat) (r : AudioRecorder) :
    ((AudioRecorder.new t).stop).1 = .noData ∧
    ((r.stop).2).frames = r.frames ∧
    ((r.stop).1 = .noData ↔ r.frames = []) := by
  refine ⟨rfl, by rw [stop_snd], ?_⟩
  unfold AudioRecorder.stop
  dsimp only
  split
  · next h => simpa [List.isEmpty_iff] using h
  · next h =>
    rw [List.isEmpty_iff] at h
    split <;> simp [h]

/-- C3 (witness): instantiation of `whisper_c3_stop_clones` at a concrete
recorder. -/
theorem whisper_c3_stop_clones_witness :
    ((AudioRecorder.new 5).stop).1 = .noData ∧
    (((AudioRecorder.new 5).stop).2).frames = (AudioRecorder.new 5).frames :=
  ⟨(whisper_c3_stop_clones 5 (AudioRecorder.new 5)).1,
   (whisper_c3_stop_clones 5 (AudioRecorder.new 5)).2.1⟩

/-- C3 (counterexample): after a start that negotiates (1 ch, 16000 Hz),
one delivered sample and a first `stop()` returning that sample, the
buffer is still inside the engine, and a second `stop()` returns the same
captured data again instead of the "no data" result — the buffer is
cloned at `stop()`, not moved out. -/
theorem whisper_c3_counterexample :
    (((((AudioRecorder.new 1).start (some [⟨1, 16000, 16000⟩])).2).deliver
        [(1 : ℚ)]).stop).1 = .captured ⟨1, 16000⟩ [1] ∧
    ((((((AudioRecorder.new 1).start (some [⟨1, 16000, 16000⟩])).2).deliver
        [(1 : ℚ)]).stop).2).frames = [1] ∧
    ((((((AudioRecorder.new 1).start (some [⟨1, 16000, 16000⟩])).2).deliver
        [(1 : ℚ)]).stop).2.stop).1 = .captured ⟨1, 16000⟩ [1] ∧
    ((((((AudioRecorder.new 1).start (some [⟨1, 16000, 16000⟩])).2).deliver
        [(1 : ℚ)]).stop).2.stop).1 ≠ .noData := by
  exact ⟨rfl, rfl, rfl, by decide⟩

/-- C5 (confirmed): a delivery never pushes the buffer length past
`max_frames`; when the buffer is exactly full, a delivery leaves the
buffer unchanged (and raises no error — the callback is total); an
in-progress delivery that would overflow copies exactly the remaining
space `max_frames - len`. -/
theorem whisper_c5_bounded_append (r : AudioRecorder) (data : List ℚ)
    (hinv : r.frames.length ≤ r.max_frames) :
    ((r.deliver data).frames.length ≤ r.max_frames) ∧
    (r.frames.length = r.max_frames → (r.deliver data).frames = r.frames) ∧
    (r.is_recording_flag = true → r.frames.length < r.max_frames →
      (r.deliver data).frames =
        r.frames ++ data.take (r.max_frames - r.frames.length)) := by
  refine ⟨deliver_frames_length_le r data hinv, ?_, ?_⟩
  · intro hfull
    unfold AudioRecorder.deliver
    split
    · rfl
    · split
      · rfl
      · omega
  · intro hrec hlt
    unfold AudioRecorder.deliver
    split
    · next h => simp [hrec] at h
    · split
      · omega
      · simp only
        rw [take_min_length]

/-- C5 (witness): instantiation of `whisper_c5_bounded_append` at a
concrete recorder whose buffer is exactly full (capacity 0). -/
theorem whisper_c5_bounded_append_witness :
    ((AudioRecorder.new 0).deliver [(1 : ℚ)]).frames.length ≤
      (AudioRecorder.new 0).max_frames ∧
    ((AudioRecorder.new 0).deliver [(1 : ℚ)]).frames =
      (AudioRecorder.new 0).frames :=
  ⟨(whisper_c5_bounded_append (AudioRecorder.new 0) [1] (by decide)).1,
   (whisper_c5_bounded_append (AudioRecorder.new 0) [1] (by decide)).2.1 (by decide)⟩

/-- C10 (confirmed): calling `start()` while `is_recording()` is true
returns `Ok(())` and leaves the whole recorder state unchanged — buffer,
stream, stored configuration and recording flag. -/
theorem whisper_c10_start_idempotent (r : AudioRecorder)
    (device : Option (List SupportedStreamConfigRange))
    (h : r.is_recording = true) :
    r.start device = (.ok (), r) := by
  unfold AudioRecorder.start
  rw [if_pos h]

/-- C10 (witness): instantiation of `whisper_c10_start_idempotent` on a
recorder in an active session. -/
theorem whisper_c10_start_idempotent_witness :
    (((AudioRecorder.new 1).start (some [⟨1, 16000, 16000⟩])).2).start none =
      (.ok (), ((AudioRecorder.new 1).start (some [⟨1, 16000, 16000⟩])).2) :=
  whisper_c10_start_idempotent _ none (by decide)

/-! ### Lemmas about the negotiation fold -/

lemma keyLe_refl (a : Nat × Nat) : keyLe a a = true := by
  simp [keyLe]

lemma keyLe_trans (a b c : Nat × Nat) (h1 : keyLe a b = true)
    (h2 : keyLe b c = true) : keyLe a c = true := by
  simp only [keyLe, Bool.or_eq_true, Bool.and_eq_true, decide_eq_true_eq] at h1 h2 ⊢
  omega

lemma keyLe_of_not (a b : Nat × Nat) (h : ¬ keyLe a b = true) :
    keyLe b a = true := by
  simp only [keyLe, Bool.or_eq_true, Bool.and_eq_true, decide_eq_true_eq] at h ⊢
  omega

lemma foldl_maxStep_some (l : List SupportedStreamConfigRange)
    (b : SupportedStreamConfigRange) :
    ∃ c, l.foldl maxStep (some b) = some c ∧ (c = b ∨ c ∈ l) ∧
      keyLe (configKey b) (configKey c) = true ∧
      ∀ d ∈ l, keyLe (configKey d) (configKey c) = true := by
  induction l generalizing b with
  | nil => exact ⟨b, rfl, Or.inl rfl, keyLe_refl _, by simp⟩
  | cons x rest ih =>
    by_cases hbx : keyLe (configKey b) (configKey x) = true
    · obtain ⟨c, hfold, hmem, hbc, hall⟩ := ih x
      refine ⟨c, ?_, ?_, keyLe_trans _ _ _ hbx hbc, ?_⟩
      · simpa [maxStep, hbx] using hfold
      · rcases hmem with h | h
        · exact Or.inr (h ▸ List.mem_cons_self x rest)
        · exact Or.inr (List.mem_cons_of_mem x h)
      · intro d hd
        rcases List.mem_cons.mp hd with h | h
        · exact h ▸ hbc
        · exact hall d h
    · obtain ⟨c, hfold, hmem, hbc, hall⟩ := ih b
      refine ⟨c, ?_, ?_, hbc, ?_⟩
      · simpa [maxStep, hbx] using hfold
      · rcases hmem with h | h
        · exact Or.inl h
        · exact Or.inr (List.mem_cons_of_mem x h)
      · intro d hd
        rcases List.mem_cons.mp hd with h | h
        · exact h ▸ keyLe_trans _ _ _ (keyLe_of_not _ _ hbx) hbc
        · exact hall d h

lemma maxByKeyLast_eq_none_iff (l : List SupportedStreamConfigRange) :
    maxByKeyLast l = none ↔ l = [] := by
  cases l with
  | nil => simp [maxByKeyLast]
  | cons x rest =>
    obtain ⟨c, hfold, _, _, _⟩ := foldl_maxStep_some rest x
    simp only [maxByKeyLast, List.foldl_cons, maxStep]
    rw [hfold]
    simp

lemma maxByKeyLast_spec (l : List SupportedStreamConfigRange)
    (c : SupportedStreamConfigRange) (h : maxByKeyLast l = some c) :
    c ∈ l ∧ ∀ d ∈ l, keyLe (configKey d) (configKey c) = true := by
  cases l with
  | nil => simp [maxByKeyLast] at h
  | cons x rest =>
    obtain ⟨e, hfold, hmem, hbe, hall⟩ := foldl_maxStep_some rest x
    have hce : c = e := by
      have : maxByKeyLast (x :: rest) = some e := by
        simpa [maxByKeyLast, maxStep] using hfold
      rw [h] at this
      exact (Option.some.injEq ..).mp this
    subst hce
    constructor
    · rcases hmem with h1 | h1
      · exact h1 ▸ List.mem_cons_self x rest
      · exact List.mem_cons_of_mem x h1
    · intro d hd
      rcases List.mem_cons.mp hd with h1 | h1
      · exact h1 ▸ hbe
      · exact hall d h1

lemma negotiate_eq_none_iff (configs : List SupportedStreamConfigRange) :
    negotiate configs = none ↔ configs.filter qualifies = [] := by
  unfold negotiate
  cases h : maxByKeyLast (configs.filter qualifies) with
  | none => simpa using (maxByKeyLast_eq_none_iff _).mp h
  | some c =>
    simp only [reduceCtorEq, false_iff]
    intro hnil
    rw [hnil] at h
    simp [maxByKeyLast] at h

/-- C9 (confirmed): negotiation keeps exactly the advertised ranges whose
channel count is at most `MAX_CHANNELS` and whose minimum sample rate is
at most `MAX_SAMPLE_RATE`; among those it selects a candidate maximal in
the lexicographic `(channels, max_sample_rate)` order; the negotiated
sample rate is `min(max_sample_rate, MAX_SAMPLE_RATE)`, hence never above
the configured ceiling; and `start()` fails with the negotiation error
when no advertised configuration qualifies. -/
theorem whisper_c9_negotiation (configs : List SupportedStreamConfigRange) :
    (negotiate configs = none ↔ configs.filter qualifies = []) ∧
    (∀ cfg, negotiate configs = some cfg →
      cfg.sampleRate ≤ MAX_SAMPLE_RATE ∧
      ∃ c, c ∈ configs.filter qualifies ∧
        cfg = ⟨c.channels, min c.maxSampleRate MAX_SAMPLE_RATE⟩ ∧
        ∀ d ∈ configs.filter qualifies,
          keyLe (configKey d) (configKey c) = true) ∧
    (∀ r : AudioRecorder, r.is_recording = false →
      configs.filter qualifies = [] →
      (r.start (some configs)).1 = .error .noSupportedConfig) := by
  refine ⟨negotiate_eq_none_iff configs, ?_, ?_⟩
  · intro cfg hcfg
    unfold negotiate at hcfg
    cases h : maxByKeyLast (configs.filter qualifies) with
    | none => rw [h] at hcfg; exact absurd hcfg (by simp)
    | some c =>
      rw [h] at hcfg
      obtain ⟨hmem, hall⟩ := maxByKeyLast_spec _ c h
      have hc : cfg = ⟨c.channels, min c.maxSampleRate MAX_SAMPLE_RATE⟩ :=
        ((Option.some.injEq ..).mp hcfg).symm
      exact ⟨hc ▸ Nat.min_le_right _ _, c, hmem, hc, hall⟩
  · intro r hr hnil
    have hneg : negotiate configs = none := (negotiate_eq_none_iff configs).mpr hnil
    unfold AudioRecorder.start
    rw [hr]
    simp [hneg]

/-- C9 (witness): instantiation of `whisper_c9_negotiation` on two
concrete devices — one negotiating (2 ch, 44100 Hz) from a range capped
above the ceiling, one with no qualifying range at all. -/
theorem whisper_c9_negotiation_witness :
    negotiate [⟨2, 8000, 48000⟩, ⟨1, 8000, 96000⟩] = some ⟨2, 44100⟩ ∧
    (⟨2, 44100⟩ : StreamConfig).sampleRate ≤ MAX_SAMPLE_RATE ∧
    ((AudioRecorder.new 60).start (some [⟨4, 8000, 48000⟩])).1 =
      .error .noSupportedConfig :=
  ⟨rfl,
   ((whisper_c9_negotiation [⟨2, 8000, 48000⟩, ⟨1, 8000, 96000⟩]).2.1
      ⟨2, 44100⟩ rfl).1,
   (whisper_c9_negotiation [⟨4, 8000, 48000⟩]).2.2
      (AudioRecorder.new 60) rfl (by decide)⟩

/-! ### The control loop -/

lemma start_ok_of_negotiate (r : AudioRecorder)
    (configs : List SupportedStreamConfigRange)
    (h : negotiate configs ≠ none) :
    (r.start (some configs)).1 = .ok () := by
  unfold AudioRecorder.start
  split
  · rfl
  · cases hneg : negotiate configs with
    | none => exact absurd hneg h
    | some c => simp [hneg]

lemma mainStep_continues (st : LoopState)
    (configs : List SupportedStreamConfigRange)
    (h : negotiate configs ≠ none) :
    ∃ st1, mainStep st (some configs) = .continues st1 ∧
      st1.app.is_recording = !st.app.is_recording := by
  unfold mainStep
  dsimp only
  split
  · next hrec =>
    have hok := start_ok_of_negotiate st.recorder configs h
    rcases hp : st.recorder.start (some configs) with ⟨res, rec1⟩
    rw [hp] at hok
    dsimp only at hok
    subst hok
    exact ⟨_, rfl, rfl⟩
  · exact ⟨_, rfl, rfl⟩

lemma runToggles_parity (configs : List SupportedStreamConfigRange)
    (h : negotiate configs ≠ none) (n : Nat) :
    ∀ st : LoopState,
      (runToggles (some configs) n st).2 = true ∧
      (runToggles (some configs) n st).1.app.is_recording =
        (st.app.is_recording != decide (n % 2 = 1)) := by
  induction n with
  | zero => intro st; exact ⟨rfl, by simp [runToggles]⟩
  | succ k ih =>
    intro st
    obtain ⟨st1, hstep, hflip⟩ := mainStep_continues st configs h
    have hun : runToggles (some configs) (k + 1) st =
        runToggles (some configs) k st1 := by
      rw [runToggles, hstep]
    obtain ⟨h1, h2⟩ := ih st1
    refine ⟨hun ▸ h1, ?_⟩
    rw [hun, h2, hflip]
    have hpar : decide ((k + 1) % 2 = 1) = !decide (k % 2 = 1) := by
      rcases Nat.mod_two_eq_zero_or_one k with hk | hk <;>
        simp [Nat.add_mod, hk]
    rw [hpar]
    cases st.app.is_recording <;> cases decide (k % 2 = 1) <;> rfl

/-- C6 (confirmed): starting from `Idle`, consuming `N` Toggle Signals
with a device on which every `start()` succeeds leaves the session
`Recording` iff `N` is odd, and no step exits the loop.  (In the
embedding, `AppState.is_recording` is written only by the Toggle arm of
the loop, matching the code, where no other path touches it.) -/
theorem whisper_c6_parity (t : Nat)
    (configs : List SupportedStreamConfigRange)
    (h : configs.filter qualifies ≠ []) (n : Nat) :
    (runToggles (some configs) n ⟨⟨false⟩, AudioRecorder.new t⟩).2 = true ∧
    ((runToggles (some configs) n
        ⟨⟨false⟩, AudioRecorder.new t⟩).1.app.is_recording = true ↔
      n % 2 = 1) := by
  have hne : negotiate configs ≠ none := by
    intro hc
    exact h ((negotiate_eq_none_iff configs).mp hc)
  obtain ⟨h1, h2⟩ := runToggles_parity configs hne n ⟨⟨false⟩, AudioRecorder.new t⟩
  refine ⟨h1, ?_⟩
  rw [h2]
  cases hd : decide (n % 2 = 1) with
  | false => simpa using of_decide_eq_false hd
  | true => simpa using of_decide_eq_true hd

/-- C6 (witness): three Toggle Signals on a working device leave the
session `Recording`. -/
theorem whisper_c6_parity_witness :
    (runToggles (some [⟨1, 16000, 16000⟩]) 3
      ⟨⟨false⟩, AudioRecorder.new 1⟩).2 = true ∧
    (runToggles (some [⟨1, 16000, 16000⟩]) 3
      ⟨⟨false⟩, AudioRecorder.new 1⟩).1.app.is_recording = true :=
  ⟨(whisper_c6_parity 1 [⟨1, 16000, 16000⟩] (by decide) 3).1,
   ((whisper_c6_parity 1 [⟨1, 16000, 16000⟩] (by decide) 3).2).mpr (by decide)⟩

/-- C4 (code behaviour at the failing input): in state `Idle`, consuming
a Toggle Signal when `start()` fails (here: no default input device)
first flips the session to `Recording` and then propagates the error via
`?`, terminating the control loop — a run of two Toggle Signals stops
after the first one, with the loop-exit flag raised and the session left
marked `Recording`, not `Idle`. -/
theorem whisper_c4_start_failure_fatal :
    mainStep ⟨⟨false⟩, AudioRecorder.new 60⟩ none =
      .fatalExit ⟨⟨true⟩, { AudioRecorder.new 60 with frames := [] }⟩ ∧
    runToggles none 2 ⟨⟨false⟩, AudioRecorder.new 60⟩ =
      (⟨⟨true⟩, { AudioRecorder.new 60 with frames := [] }⟩, false) :=
  ⟨rfl, rfl⟩

/-! ### The hotkey matchers -/

lemma rdevRun_target_held (n : Nat) :
    rdevRun ⟨true, true⟩
      (List.replicate n (.keyPress .targetKey)) = (⟨true, true⟩, 0) := by
  induction n with
  | zero => rfl
  | succ k ih =>
    rw [List.replicate_succ]
    show ((rdevRun ⟨true, true⟩ (List.replicate k (.keyPress .targetKey))).1,
      0 + (rdevRun ⟨true, true⟩ (List.replicate k (.keyPress .targetKey))).2) =
      (⟨true, true⟩, 0)
    rw [ih]
    rfl

lemma evdevRun_target_repeats (n : Nat) :
    evdevRun [29, 97] 87 true (List.replicate n ⟨87, 2⟩) = (true, n) := by
  induction n with
  | zero => rfl
  | succ k ih =>
    rw [List.replicate_succ]
    show ((evdevRun [29, 97] 87 true (List.replicate k ⟨87, 2⟩)).1,
      1 + (evdevRun [29, 97] 87 true (List.replicate k ⟨87, 2⟩)).2) =
      (true, k + 1)
    rw [ih]
    simp [Nat.add_comm]

/-- C2 (amended): while the modifier is held, a physical press of the
target key followed by `n` autorepeat notifications and no release edge
yields exactly one Toggle Signal in the hook-based (rdev) backend — its
`key_pressed` latch suppresses the repeats — but `n + 1` Toggle Signals
in the raw-device (evdev) backend, which treats `value == 2` (repeat)
like a press and keeps no latch on the target key.  (Concrete chord:
Ctrl codes 29/97, F11 code 87.) -/
theorem whisper_c2_one_toggle_per_press (n : Nat) :
    (rdevRun ⟨true, false⟩
      (.keyPress .targetKey :: List.replicate n (.keyPress .targetKey))).2 = 1 ∧
    (evdevRun [29, 97] 87 true
      (⟨87, 1⟩ :: List.replicate n ⟨87, 2⟩)).2 = n + 1 := by
  constructor
  · show 1 + (rdevRun ⟨true, true⟩
      (List.replicate n (.keyPress .targetKey))).2 = 1
    rw [rdevRun_target_held]
    rfl
  · show 1 + (evdevRun [29, 97] 87 true (List.replicate n ⟨87, 2⟩)).2 = n + 1
    rw [evdevRun_target_repeats]
    exact Nat.add_comm 1 n

/-- C2 (counterexample): in the evdev backend, one physical press of the
target key followed by a single OS autorepeat notification (no release
edge) while the modifier is held emits two Toggle Signals, not exactly
one as claimed. -/
theorem whisper_c2_counterexample :
    (evdevRun [29, 97] 87 true [⟨87, 1⟩, ⟨87, 2⟩]).2 = 2 ∧
    (evdevRun [29, 97] 87 true [⟨87, 1⟩, ⟨87, 2⟩]).2 ≠ 1 := by
  exact ⟨rfl, by decide⟩

lemma rdevCallback_latch (s : RdevListenerState) (e : RdevEvent)
    (h : s.key_pressed = true → s.mod_pressed = true) :
    (rdevCallback s e).1.key_pressed = true →
      (rdevCallback s e).1.mod_pressed = true := by
  cases e with
  | keyPress k =>
    cases k with
    | modifierLeft => intro _; rfl
    | modifierRight => intro _; rfl
    | targetKey =>
      by_cases hc : (!s.key_pressed && s.mod_pressed) = true
      · have hm : s.mod_pressed = true := ((Bool.and_eq_true ..).mp hc).2
        have hr : rdevCallback s (.keyPress .targetKey) =
            ({ s with key_pressed := true }, 1) := by
          show (if !s.key_pressed && s.mod_pressed then
            ({ s with key_pressed := true }, 1) else (s, 0) :
              RdevListenerState × Nat) = _
          rw [if_pos hc]
        rw [hr]
        exact fun _ => hm
      · have hr : rdevCallback s (.keyPress .targetKey) = (s, 0) := by
          show (if !s.key_pressed && s.mod_pressed then
            ({ s with key_pressed := true }, 1) else (s, 0) :
              RdevListenerState × Nat) = _
          rw [if_neg hc]
        rw [hr]
        exact h
    | otherKey => exact h
  | keyRelease k =>
    cases k with
    | modifierLeft => intro hk; exact Bool.noConfusion hk
    | modifierRight => intro hk; exact Bool.noConfusion hk
    | targetKey => intro hk; exact Bool.noConfusion hk
    | otherKey => exact h

lemma rdevRun_latch (evs : List RdevEvent) :
    ∀ s : RdevListenerState, (s.key_pressed = true → s.mod_pressed = true) →
      ((rdevRun s evs).1.key_pressed = true →
        (rdevRun s evs).1.mod_pressed = true) := by
  induction evs with
  | nil => intro s h; exact h
  | cons e rest ih =>
    intro s h
    show ((rdevRun (rdevCallback s e).1 rest).1.key_pressed = true →
      (rdevRun (rdevCallback s e).1 rest).1.mod_pressed = true)
    exact ih (rdevCallback s e).1 (rdevCallback_latch s e h)

lemma rdevRun_no_modifier (evs : List RdevEvent) :
    ∀ s : RdevListenerState, s.mod_pressed = false →
      (∀ e ∈ evs, e.isModifierPress = false) →
      (rdevRun s evs).2 = 0 ∧ (rdevRun s evs).1.mod_pressed = false := by
  induction evs with
  | nil => intro s hs _; exact ⟨rfl, hs⟩
  | cons e rest ih =>
    intro s hs hall
    have he : e.isModifierPress = false := hall e (List.mem_cons_self e rest)
    have hstep : (rdevCallback s e).2 = 0 ∧
        (rdevCallback s e).1.mod_pressed = false := by
      cases e with
      | keyPress k =>
        cases k with
        | modifierLeft => simp [RdevEvent.isModifierPress, RdevKey.isModifier] at he
        | modifierRight => simp [RdevEvent.isModifierPress, RdevKey.isModifier] at he
        | targetKey =>
          have hc : (!s.key_pressed && s.mod_pressed) = false := by
            rw [hs]; simp
          have hr : rdevCallback s (.keyPress .targetKey) = (s, 0) := by
            show (if !s.key_pressed && s.mod_pressed then
              ({ s with key_pressed := true }, 1) else (s, 0)) = (s, 0)
            rw [if_neg (by simp [hc])]
          rw [hr]
          exact ⟨rfl, hs⟩
        | otherKey => exact ⟨rfl, hs⟩
      | keyRelease k =>
        cases k with
        | modifierLeft => exact ⟨rfl, rfl⟩
        | modifierRight => exact ⟨rfl, rfl⟩
        | targetKey => exact ⟨rfl, hs⟩
        | otherKey => exact ⟨rfl, hs⟩
    have hrest := ih (rdevCallback s e).1 hstep.2
      (fun x hx => hall x (List.mem_cons_of_mem e hx))
    constructor
    · show (rdevCallback s e).2 + (rdevRun (rdevCallback s e).1 rest).2 = 0
      rw [hstep.1, hrest.1]
    · show (rdevRun (rdevCallback s e).1 rest).1.mod_pressed = false
      exact hrest.2

/-- C7 (confirmed): in every state of the rdev matcher reachable from the
initial state, `key_pressed` (the latch) is true only when `mod_pressed`
is true — it is only ever set at a target-key press edge with the
modifier held; processing a modifier release forces both flags to false;
and from any state with the modifier up, any event sequence containing no
modifier press (in particular re-pressing the target key after a modifier
release) emits no Toggle Signal. -/
theorem whisper_c7_latch_invariant :
    (∀ evs : List RdevEvent,
      (rdevRun ⟨false, false⟩ evs).1.key_pressed = true →
        (rdevRun ⟨false, false⟩ evs).1.mod_pressed = true) ∧
    (∀ (s : RdevListenerState) (k : RdevKey), k.isModifier = true →
      (rdevCallback s (.keyRelease k)).1 = ⟨false, false⟩) ∧
    (∀ (s : RdevListenerState) (evs : List RdevEvent),
      s.mod_pressed = false → (∀ e ∈ evs, e.isModifierPress = false) →
      (rdevRun s evs).2 = 0) := by
  refine ⟨?_, ?_, ?_⟩
  · intro evs
    exact rdevRun_latch evs ⟨false, false⟩ (by intro h; exact absurd h (by decide))
  · intro s k hk
    cases k with
    | modifierLeft => rfl
    | modifierRight => rfl
    | targetKey => exact absurd hk (by decide)
    | otherKey => exact absurd hk (by decide)
  · intro s evs hs hall
    exact (rdevRun_no_modifier evs s hs hall).1

/-- C7 (witness): releasing the modifier while the target key is still
physically down resets both flags, and re-pressing the target key
afterwards (without re-pressing the modifier) emits no Toggle Signal. -/
theorem whisper_c7_latch_invariant_witness :
    (rdevCallback ⟨true, true⟩ (.keyRelease .modifierLeft)).1 = ⟨false, false⟩ ∧
    (rdevRun ⟨false, true⟩
      [.keyRelease .targetKey, .keyPress .targetKey]).2 = 0 :=
  ⟨whisper_c7_latch_invariant.2.1 ⟨true, true⟩ .modifierLeft rfl,
   whisper_c7_latch_invariant.2.2 ⟨false, true⟩
     [.keyRelease .targetKey, .keyPress .targetKey] rfl (by decide)⟩

/-! ### The encoder conversion -/

lemma i16Truncate_le (q : ℚ) (b : ℤ) (h : q ≤ (b : ℚ)) :
    i16Truncate q ≤ b := by
  unfold i16Truncate
  split
  · calc ⌊q⌋ ≤ ⌊(b : ℚ)⌋ := Int.floor_le_floor h
      _ = b := Int.floor_intCast b
  · calc ⌈q⌉ ≤ ⌈(b : ℚ)⌉ := Int.ceil_le_ceil h
      _ = b := Int.ceil_intCast b

lemma le_i16Truncate (q : ℚ) (b : ℤ) (h : (b : ℚ) ≤ q) :
    b ≤ i16Truncate q := by
  unfold i16Truncate
  split
  · calc b = ⌊(b : ℚ)⌋ := (Int.floor_intCast b).symm
      _ ≤ ⌊q⌋ := Int.floor_le_floor h
  · calc b = ⌈(b : ℚ)⌉ := (Int.ceil_intCast b).symm
      _ ≤ ⌈q⌉ := Int.ceil_le_ceil h

lemma abs_i16Truncate_sub_lt (q : ℚ) : |(i16Truncate q : ℚ) - q| < 1 := by
  unfold i16Truncate
  split
  · rw [abs_lt]
    constructor <;> linarith [Int.floor_le q, Int.sub_one_lt_floor q]
  · rw [abs_lt]
    constructor <;> linarith [Int.le_ceil q, Int.ceil_lt_add_one q]

/-- C8 (confirmed): the conversion scales each float sample by the signed
16-bit maximum (32767) and clamps to `[-32768, 32767]` — the output is
always in the representable i16 range (never wraps); for every in-range
input sample, the 16-bit value read back from the file differs from the
ideal scaled sample by less than one least-significant bit; and a
non-empty buffer encodes exactly to the per-sample conversion of its
contents. -/
theorem whisper_c8_scale_and_clamp (x : ℚ) :
    ((-32768 : ℤ) ≤ f32ToI16Sample x ∧ f32ToI16Sample x ≤ 32767) ∧
    (|x| ≤ 1 → |((f32ToI16Sample x : ℤ) : ℚ) - x * 32767| < 1) ∧
    (∀ data : List ℚ, data ≠ [] →
      save_f32_to_wav data = .ok (data.map f32ToI16Sample)) := by
  refine ⟨⟨?_, ?_⟩, ?_, ?_⟩
  · refine le_i16Truncate _ _ ?_
    unfold clampQ
    push_cast
    rcases le_total (max (x * 32767) (-32768)) 32767 with h | h
    · rw [min_eq_left h]
      exact le_max_right _ _
    · rw [min_eq_right h]
      norm_num
  · refine i16Truncate_le _ _ ?_
    unfold clampQ
    push_cast
    exact min_le_right _ _
  · intro hx
    obtain ⟨h1, h2⟩ := abs_le.mp hx
    have hlo : (-32768 : ℚ) ≤ x * 32767 := by nlinarith
    have hhi : x * 32767 ≤ 32767 := by nlinarith
    have hclamp : clampQ (x * 32767) (-32768) 32767 = x * 32767 := by
      unfold clampQ
      rw [max_eq_left hlo, min_eq_left hhi]
    unfold f32ToI16Sample
    rw [hclamp]
    exact abs_i16Truncate_sub_lt (x * 32767)
  · intro data hdata
    unfold save_f32_to_wav
    rw [if_neg (by simpa [List.isEmpty_iff] using hdata)]

/-- C8 (witness): instantiation of `whisper_c8_scale_and_clamp` at the
full-scale sample 1. -/
theorem whisper_c8_scale_and_clamp_witness :
    ((-32768 : ℤ) ≤ f32ToI16Sample 1 ∧ f32ToI16Sample 1 ≤ 32767) ∧
    |((f32ToI16Sample 1 : ℤ) : ℚ) - 1 * 32767| < 1 ∧
    save_f32_to_wav [(1 : ℚ)] = .ok ([(1 : ℚ)].map f32ToI16Sample) :=
  ⟨(whisper_c8_scale_and_clamp 1).1,
   (whisper_c8_scale_and_clamp 1).2.1 (by norm_num),
   (whisper_c8_scale_and_clamp 1).2.2 [(1 : ℚ)] (by simp)⟩

end Whisper
